import Mathlib

/-!
Verification of the product data-access layer (`app/servises/products.py`).

The Python service `ProductService` issues parameterized SQL against a single
`products` table through an injected asyncpg connection, and maps rows to
`Product` values.  We embed:

* the data model (`Product`, the table state `DB`);
* the incremental query construction of `list` (`listBuild`), character for
  character up to whitespace normalisation, together with a scanner
  (`phIndices`) extracting `$n` positional placeholders from a query string;
* the result-handling logic of each operation (`createHandle`, `getHandle`,
  `listHandle`, `updateHandle`, `deleteHandle`), translated directly from the
  Python bodies (try/except on `UniqueViolationError`, `if not stored_data`);
* the storage executors (`insertExec`, `selectById`, `listMatches`,
  `updateExec`, `deleteExec`).  Postgres itself is an external collaborator of
  the repository; the executors are modelled from the spec's storage contract
  (§6): insert assigns a fresh `product_id` and enforces `name` uniqueness,
  `ILIKE` with wildcards on both sides is case-insensitive substring match on
  `name`, `ORDER BY product_id` sorts ascending, `LIMIT` caps after ordering,
  and `UPDATE`/`DELETE ... RETURNING` act on the rows matching `product_id`.
-/

/-- A stored row of the `products` table; also the `Product` entity, since
`get_product_object` maps rows to entities by direct field-name
correspondence.  `category` is nullable text; `price` is numeric (modelled as
an integer, its arithmetic is never used). -/
structure Product where
  product_id : Nat
  name : String
  category : Option String
  price : Int
deriving DecidableEq, Repr

/-- The state of the `products` table: the stored rows and the next value of
the generated-primary-key sequence. -/
structure DB where
  rows : List Product
  nextId : Nat
deriving DecidableEq, Repr

/-- Storage-level (asyncpg) exceptions: the name-uniqueness violation, or any
other infrastructure error, tagged by an opaque code. -/
inductive PgErr where
  | UniqueViolationError
  | other (code : Nat)
deriving DecidableEq, Repr

/-- The service's typed failures, named after the exception classes raised in
`products.py`; `StorageError e` stands for a storage-level exception `e`
propagating out of the service unchanged (no try/except catches it). -/
inductive DomErr where
  | ProductNotFoundException (product_id : Nat)
  | ProductsListNotFoundException
  | ProductExistsException (name : String)
  | ProductNotCreatedException
  | StorageError (e : PgErr)
deriving DecidableEq, Repr

/-- A positional query parameter as passed to `conn.fetch`: the `list` query
binds strings (the keyword pattern, the category) and an integer (the limit). -/
inductive PgParam where
  | str (s : String)
  | nat (n : Nat)
deriving DecidableEq, Repr

/-- Python truthiness of the optional `category` argument: `None` and the
empty string are falsy (`if category:` in the source). -/
def pyTruthyStrOpt : Option String → Bool
  | none => false
  | some s => !(s == "")

/-- Python truthiness of the optional `limit` argument: `None` and `0` are
falsy (`if limit:` in the source). -/
def pyTruthyNatOpt : Option Nat → Bool
  | none => false
  | some n => !(n == 0)

/-- The incremental query construction of `ProductService.list`, translated
from the source (whitespace normalised): `params` starts as the keyword
wrapped in `%` wildcards; the category clause (hard-coded `$2`) and its
parameter are appended when `category` is truthy; after `ORDER BY`, the limit
clause computes its placeholder as `len(params) + 1` and then appends the
limit parameter. -/
def listBuild (keyword : String) (category : Option String) (limit : Option Nat) :
    String × List PgParam :=
  let params : List PgParam := [PgParam.str ("%" ++ keyword ++ "%")]
  let query : String := "SELECT * FROM products WHERE name ILIKE $1"
  let query1 := if pyTruthyStrOpt category then query ++ " AND category = $2" else query
  let params1 := if pyTruthyStrOpt category then params ++ [PgParam.str (category.getD "")] else params
  let query2 := query1 ++ " ORDER BY product_id"
  let query3 := if pyTruthyNatOpt limit then
      query2 ++ " LIMIT $" ++ toString (params1.length + 1) else query2
  let params2 := if pyTruthyNatOpt limit then params1 ++ [PgParam.nat (limit.getD 0)] else params1
  (query3 ++ ";", params2)

/-- Scanner state machine extracting the `$n` positional placeholders of a
query string, in order of appearance: on `$` it starts accumulating a decimal
index (second argument `some n`), which is emitted at the first non-digit. -/
def phScan : List Char → Option Nat → List Nat
  | [], none => []
  | [], some n => [n]
  | c :: rest, none =>
    if c = '$' then phScan rest (some 0) else phScan rest none
  | c :: rest, some n =>
    if c.isDigit then phScan rest (some (n * 10 + (c.toNat - 48)))
    else if c = '$' then n :: phScan rest (some 0)
    else n :: phScan rest none

/-- The positional placeholder indices occurring in a query string, in order. -/
def phIndices (s : String) : List Nat := phScan s.toList none

/-- Case-sensitive containment of `needle` in `hay`, over character lists. -/
def containsSubL (needle hay : List Char) : Bool :=
  match hay with
  | [] => needle == []
  | _ :: t => needle.isPrefixOf hay || containsSubL needle t

/-- Case-insensitive containment of `needle` in `hay`. -/
def containsCI (hay needle : String) : Bool :=
  containsSubL (needle.toList.map Char.toLower) (hay.toList.map Char.toLower)

/-- Ascending order on `product_id`, the `ORDER BY product_id` sort key. -/
def idle (a b : Product) : Prop := a.product_id ≤ b.product_id

instance : DecidableRel idle :=
  fun a b => inferInstanceAs (Decidable (a.product_id ≤ b.product_id))

instance : IsTotal Product idle := ⟨fun a b => Nat.le_total a.product_id b.product_id⟩

instance : IsTrans Product idle := ⟨fun _ _ _ hab hbc => Nat.le_trans hab hbc⟩

/-- Modelled from the spec: `ORDER BY product_id` returns the rows sorted in
ascending `product_id` order (storage contract, §6). -/
def orderById (l : List Product) : List Product := List.insertionSort idle l

namespace ProductService

/-- Row-to-entity mapping (`get_product_object`): rows are modelled directly
as field records, so the key/value unpacking is the identity. -/
def get_product_object (stored_data : Product) : Product := stored_data

/-- Result handling of `create` translated from the source: the try/except
turns `UniqueViolationError` into `ProductExistsException(name)`, any other
storage exception propagates, `if not stored_data` raises
`ProductNotCreatedException`, otherwise the row is mapped and returned. -/
def createHandle (name : String) (res : Except PgErr (Option Product)) :
    Except DomErr Product :=
  match res with
  | Except.error PgErr.UniqueViolationError =>
    Except.error (DomErr.ProductExistsException name)
  | Except.error e => Except.error (DomErr.StorageError e)
  | Except.ok none => Except.error DomErr.ProductNotCreatedException
  | Except.ok (some stored_data) => Except.ok (get_product_object stored_data)

/-- Result handling of `get` translated from the source: no try/except, so
every storage exception propagates; `if not stored_data` raises
`ProductNotFoundException(product_id)`. -/
def getHandle (product_id : Nat) (res : Except PgErr (Option Product)) :
    Except DomErr Product :=
  match res with
  | Except.error e => Except.error (DomErr.StorageError e)
  | Except.ok none => Except.error (DomErr.ProductNotFoundException product_id)
  | Except.ok (some stored_data) => Except.ok (get_product_object stored_data)

/-- Result handling of `list` translated from the source: no try/except;
`if not stored_data` on an empty row list raises
`ProductsListNotFoundException`, otherwise every row is mapped. -/
def listHandle (res : Except PgErr (List Product)) : Except DomErr (List Product) :=
  match res with
  | Except.error e => Except.error (DomErr.StorageError e)
  | Except.ok stored_data =>
    if stored_data.isEmpty then Except.error DomErr.ProductsListNotFoundException
    else Except.ok (stored_data.map get_product_object)

/-- Result handling of `update` translated from the source: like `create`'s
try/except on `UniqueViolationError`, but an empty result raises
`ProductNotFoundException(product_id)`. -/
def updateHandle (product_id : Nat) (name : String)
    (res : Except PgErr (Option Product)) : Except DomErr Product :=
  match res with
  | Except.error PgErr.UniqueViolationError =>
    Except.error (DomErr.ProductExistsException name)
  | Except.error e => Except.error (DomErr.StorageError e)
  | Except.ok none => Except.error (DomErr.ProductNotFoundException product_id)
  | Except.ok (some stored_data) => Except.ok (get_product_object stored_data)

/-- Result handling of `delete` translated from the source: no try/except;
`if not stored_data` raises `ProductNotFoundException(product_id)`. -/
def deleteHandle (product_id : Nat) (res : Except PgErr (Option Product)) :
    Except DomErr Product :=
  match res with
  | Except.error e => Except.error (DomErr.StorageError e)
  | Except.ok none => Except.error (DomErr.ProductNotFoundException product_id)
  | Except.ok (some stored_data) => Except.ok (get_product_object stored_data)

/-- Modelled from the spec: execution of the INSERT statement (storage
contract, §6) — storage enforces `name` uniqueness, assigns the generated
`product_id`, appends the row, and `RETURNING *` yields it. -/
def insertExec (db : DB) (name : String) (category : Option String) (price : Int) :
    Except PgErr (Option Product) × DB :=
  if db.rows.any (fun r => r.name == name) then
    (Except.error PgErr.UniqueViolationError, db)
  else
    let p : Product := ⟨db.nextId, name, category, price⟩
    (Except.ok (some p), ⟨db.rows ++ [p], db.nextId + 1⟩)

/-- Modelled from the spec: execution of the SELECT by exact `product_id`
(storage contract, §6); `fetchrow` yields the first matching row or nothing. -/
def selectById (db : DB) (product_id : Nat) : Option Product :=
  db.rows.find? (fun r => r.product_id == product_id)

/-- Modelled from the spec: the rows produced by the `list` SELECT (storage
contract, §6) — filter by case-insensitive substring of the keyword against
`name` (the `ILIKE` pattern wraps the keyword in `%` wildcards), AND exact
`category` match when that clause was appended (truthy argument), then
`ORDER BY product_id` ascending, then `LIMIT` when that clause was appended. -/
def listMatches (db : DB) (keyword : String) (category : Option String)
    (limit : Option Nat) : List Product :=
  let base := orderById (db.rows.filter (fun r =>
    containsCI r.name keyword &&
      (if pyTruthyStrOpt category then decide (r.category = some (category.getD ""))
       else true)))
  if pyTruthyNatOpt limit then base.take (limit.getD 0) else base

/-- Modelled from the spec: execution of the UPDATE statement (storage
contract, §6) — when no row matches `product_id` nothing is returned and
nothing is checked; otherwise storage rejects a `name` colliding with a
different row, else all three fields of the matching row are replaced and
`RETURNING *` yields the new row. -/
def updateExec (db : DB) (product_id : Nat) (name : String)
    (category : Option String) (price : Int) : Except PgErr (Option Product) × DB :=
  match selectById db product_id with
  | none => (Except.ok none, db)
  | some _ =>
    if db.rows.any (fun r => r.name == name && !(r.product_id == product_id)) then
      (Except.error PgErr.UniqueViolationError, db)
    else
      let p : Product := ⟨product_id, name, category, price⟩
      (Except.ok (some p),
       ⟨db.rows.map (fun r => if r.product_id == product_id then p else r), db.nextId⟩)

/-- Modelled from the spec: execution of the DELETE statement (storage
contract, §6) — removes the rows matching `product_id`; `RETURNING *` yields
the removed row, or nothing when none matched. -/
def deleteExec (db : DB) (product_id : Nat) : Except PgErr (Option Product) × DB :=
  match selectById db product_id with
  | none => (Except.ok none, db)
  | some p =>
    (Except.ok (some p), ⟨db.rows.filter (fun r => !(r.product_id == product_id)), db.nextId⟩)

/-- `ProductService.create`: INSERT, then result handling. -/
def create (db : DB) (name : String) (category : Option String) (price : Int) :
    Except DomErr Product × DB :=
  let r := insertExec db name category price
  (createHandle name r.1, r.2)

/-- `ProductService.get`: SELECT by id, then result handling; a pure read, the
state is returned unchanged. -/
def get (db : DB) (product_id : Nat) : Except DomErr Product × DB :=
  (getHandle product_id (Except.ok (selectById db product_id)), db)

/-- `ProductService.list`: the dynamically built SELECT, then result
handling; a pure read, the state is returned unchanged. -/
def list (db : DB) (keyword : String) (category : Option String)
    (limit : Option Nat) : Except DomErr (List Product) × DB :=
  (listHandle (Except.ok (listMatches db keyword category limit)), db)

/-- `ProductService.update`: UPDATE, then result handling. -/
def update (db : DB) (product_id : Nat) (name : String) (category : Option String)
    (price : Int) : Except DomErr Product × DB :=
  let r := updateExec db product_id name category price
  (updateHandle product_id name r.1, r.2)

/-- `ProductService.delete`: DELETE, then result handling. -/
def delete (db : DB) (product_id : Nat) : Except DomErr Product × DB :=
  let r := deleteExec db product_id
  (deleteHandle product_id r.1, r.2)

end ProductService

/-- C1: in every `list` query built by `listBuild`, the placeholder indices
appearing in the query text are exactly `1, 2, …, n` in order, where `n` is
the length of the ordered parameter list; the keyword pattern is always
parameter `$1`; when `category` is truthy it is appended as `$2` (one plus the
single already-appended parameter); when `limit` is truthy its placeholder is
one plus the count of already-appended parameters (`$2` without a category
clause, `$3` with one), in all four supplied/absent combinations. -/
theorem list_placeholders_match_params (keyword : String) (category : Option String)
    (limit : Option Nat) :
    phIndices (listBuild keyword category limit).1 =
      List.range' 1 (listBuild keyword category limit).2.length ∧
    (listBuild keyword category limit).2.head? = some (PgParam.str ("%" ++ keyword ++ "%")) ∧
    (pyTruthyStrOpt category = true →
      (listBuild keyword category limit).2.get? 1 = some (PgParam.str (category.getD "")) ∧
      containsSubL " AND category = $2".toList (listBuild keyword category limit).1.toList = true) ∧
    (pyTruthyNatOpt limit = true →
      (listBuild keyword category limit).2.getLast? = some (PgParam.nat (limit.getD 0)) ∧
      containsSubL (" LIMIT $" ++ toString ((if pyTruthyStrOpt category then 1 else 0) + 2)).toList
        (listBuild keyword category limit).1.toList = true) := by
  cases hc : pyTruthyStrOpt category <;> cases hl : pyTruthyNatOpt limit <;>
    simp [listBuild, phIndices, hc, hl] <;> decide

/-- Concrete instantiation of `list_placeholders_match_params` with both
optional clauses present, discharging both truthiness hypotheses. -/
theorem list_placeholders_match_params_witness :
    (listBuild "wid" (some "tools") (some 2)).2.get? 1 = some (PgParam.str "tools") ∧
    (listBuild "wid" (some "tools") (some 2)).2.getLast? = some (PgParam.nat 2) := by
  refine ⟨((list_placeholders_match_params "wid" (some "tools") (some 2)).2.2.1 (by decide)).1, ?_⟩
  exact ((list_placeholders_match_params "wid" (some "tools") (some 2)).2.2.2 (by decide)).1

/-- A sample table with two products, used to instantiate the theorems. -/
def db0 : DB :=
  ⟨[⟨1, "Widget A", some "tools", 999⟩, ⟨2, "Gadget", some "toys", 500⟩], 3⟩

/-- Mapping each row through the identity `get_product_object` is the
identity on lists of rows. -/
theorem ProductService.map_get_product_object (l : List Product) :
    l.map ProductService.get_product_object = l := by
  induction l with
  | nil => rfl
  | cons a t ih => simp [ProductService.get_product_object, ih]

/-- How `ProductService.list` relates to the rows its query matches: an error
exactly on the empty match. -/
theorem ProductService.list_eq (db : DB) (k : String) (c : Option String) (l : Option Nat) :
    ProductService.list db k c l =
      (if ProductService.listMatches db k c l = [] then
        Except.error DomErr.ProductsListNotFoundException
      else Except.ok (ProductService.listMatches db k c l), db) := by
  by_cases h : ProductService.listMatches db k c l = [] <;>
    simp [ProductService.list, ProductService.listHandle,
      ProductService.map_get_product_object, h]

/-- C2: a `list` call matching zero rows fails with
`ProductsListNotFoundException` and never returns an empty sequence; with at
least one match it returns the non-empty sequence of matching products. -/
theorem list_zero_rows_is_error (db : DB) (keyword : String) (category : Option String)
    (limit : Option Nat) :
    (ProductService.listMatches db keyword category limit = [] →
      (ProductService.list db keyword category limit).1 =
        Except.error DomErr.ProductsListNotFoundException) ∧
    (ProductService.listMatches db keyword category limit ≠ [] →
      (ProductService.list db keyword category limit).1 =
        Except.ok (ProductService.listMatches db keyword category limit)) ∧
    (∀ ps, (ProductService.list db keyword category limit).1 = Except.ok ps → ps ≠ []) := by
  refine ⟨fun h => by simp [ProductService.list_eq, h],
    fun h => by simp [ProductService.list_eq, h], fun ps hps => ?_⟩
  by_cases h : ProductService.listMatches db keyword category limit = [] <;>
    simp [ProductService.list_eq, h] at hps
  exact hps ▸ h

/-- Concrete instantiation of `list_zero_rows_is_error`: no product name
contains "zzz", and the call fails with the list-not-found error. -/
theorem list_zero_rows_is_error_witness :
    (ProductService.list db0 "zzz" none none).1 =
      Except.error DomErr.ProductsListNotFoundException :=
  (list_zero_rows_is_error db0 "zzz" none none).1 (by decide)

/-- C3: without a limit, `list` matches exactly the stored rows whose name
contains the keyword case-insensitively, and — when a truthy category is
supplied — whose category equals it exactly. -/
theorem list_filters_by_keyword_and_category (db : DB) (keyword : String)
    (category : Option String) :
    ∀ p : Product, p ∈ ProductService.listMatches db keyword category none ↔
      p ∈ db.rows ∧ containsCI p.name keyword = true ∧
        (pyTruthyStrOpt category = true → p.category = some (category.getD "")) := by
  intro p
  unfold ProductService.listMatches orderById
  rw [if_neg (by simp [pyTruthyNatOpt]), (List.perm_insertionSort idle _).mem_iff]
  cases hc : pyTruthyStrOpt category <;> simp [List.mem_filter, hc, and_assoc]

/-- Concrete instantiation of `list_filters_by_keyword_and_category`: the
keyword "gad" matches "Gadget" case-insensitively. -/
theorem list_filters_by_keyword_and_category_witness :
    (⟨2, "Gadget", some "toys", 500⟩ : Product) ∈
      ProductService.listMatches db0 "gad" none none :=
  (list_filters_by_keyword_and_category db0 "gad" none ⟨2, "Gadget", some "toys", 500⟩).mpr
    (by refine ⟨by decide, by decide, fun h => ?_⟩; cases h)

/-- The sort produced by `ORDER BY product_id` is ascending on `product_id`. -/
theorem orderById_sorted (l : List Product) : List.Sorted idle (orderById l) :=
  List.sorted_insertionSort idle l

/-- Without a limit clause, the matched rows are the sorted filtered table. -/
theorem ProductService.listMatches_none (db : DB) (k : String) (c : Option String) :
    ProductService.listMatches db k c none =
      orderById (db.rows.filter fun r =>
        containsCI r.name k &&
          (if pyTruthyStrOpt c then decide (r.category = some (c.getD "")) else true)) := by
  simp [ProductService.listMatches, pyTruthyNatOpt]

/-- The limit clause takes a prefix of the unlimited result, after ordering. -/
theorem ProductService.listMatches_base (db : DB) (k : String) (c : Option String)
    (l : Option Nat) :
    ProductService.listMatches db k c l =
      if pyTruthyNatOpt l = true then
        (ProductService.listMatches db k c none).take (l.getD 0)
      else ProductService.listMatches db k c none := by
  have h2 : pyTruthyNatOpt none = false := rfl
  cases h : pyTruthyNatOpt l <;> simp [ProductService.listMatches, h, h2]

/-- C4: every `list` result is sorted by `product_id` ascending, and a truthy
limit yields exactly the first `n` rows, in that order, of the unlimited
result — hence at most `n` rows. -/
theorem list_ordered_and_capped (db : DB) (keyword : String) (category : Option String)
    (limit : Option Nat) :
    List.Sorted idle (ProductService.listMatches db keyword category limit) ∧
    (∀ n : Nat, limit = some n → pyTruthyNatOpt limit = true →
      ProductService.listMatches db keyword category limit =
        (ProductService.listMatches db keyword category none).take n ∧
      (ProductService.listMatches db keyword category limit).length ≤ n) := by
  constructor
  · rw [ProductService.listMatches_base, ProductService.listMatches_none]
    split
    · exact List.Pairwise.sublist (List.take_sublist _ _) (orderById_sorted _)
    · exact orderById_sorted _
  · rintro n rfl htr
    have heq : ProductService.listMatches db keyword category (some n) =
        (ProductService.listMatches db keyword category none).take n := by
      rw [ProductService.listMatches_base, if_pos htr]
      rfl
    refine ⟨heq, ?_⟩
    rw [heq, List.length_take]
    exact Nat.min_le_left _ _

/-- Concrete instantiation of `list_ordered_and_capped`: with limit 1 the
"d" keyword search returns the first row only. -/
theorem list_ordered_and_capped_witness :
    ProductService.listMatches db0 "d" none (some 1) =
      (ProductService.listMatches db0 "d" none none).take 1 ∧
    (ProductService.listMatches db0 "d" none (some 1)).length ≤ 1 :=
  (list_ordered_and_capped db0 "d" none (some 1)).2 1 rfl (by decide)

/-- C5: `create` fails with `ProductExistsException name` on a storage
uniqueness violation; an insert acknowledged with no row data fails with
`ProductNotCreatedException`; otherwise the freshly inserted row, with the
caller's three fields and the storage-assigned `product_id`, is appended and
returned. -/
theorem create_spec (db : DB) (name : String) (category : Option String) (price : Int) :
    (db.rows.any (fun r => r.name == name) = true →
      ProductService.create db name category price =
        (Except.error (DomErr.ProductExistsException name), db)) ∧
    (db.rows.any (fun r => r.name == name) = false →
      ProductService.create db name category price =
        (Except.ok ⟨db.nextId, name, category, price⟩,
          ⟨db.rows ++ [⟨db.nextId, name, category, price⟩], db.nextId + 1⟩)) ∧
    ProductService.createHandle name (Except.ok none) =
      Except.error DomErr.ProductNotCreatedException := by
  refine ⟨fun h => ?_, fun h => ?_, rfl⟩ <;>
    simp [ProductService.create, ProductService.insertExec, ProductService.createHandle,
      ProductService.get_product_object, h]

/-- Concrete instantiation of `create_spec`: inserting a fresh name appends
the row with the next generated id, re-inserting a taken name fails. -/
theorem create_spec_witness :
    ProductService.create db0 "Doohickey" (some "tools") 100 =
      (Except.ok ⟨3, "Doohickey", some "tools", 100⟩,
        ⟨db0.rows ++ [⟨3, "Doohickey", some "tools", 100⟩], 4⟩) ∧
    ProductService.create db0 "Widget A" (some "tools") 100 =
      (Except.error (DomErr.ProductExistsException "Widget A"), db0) :=
  ⟨(create_spec db0 "Doohickey" (some "tools") 100).2.1 (by decide),
    (create_spec db0 "Widget A" (some "tools") 100).1 (by decide)⟩

/-- C7: `get` leaves the table untouched, returns the row found by exact
`product_id` match, and fails with `ProductNotFoundException product_id`
exactly when no stored row carries that id. -/
theorem get_spec (db : DB) (product_id : Nat) :
    (ProductService.get db product_id).2 = db ∧
    (∀ p, ProductService.selectById db product_id = some p →
      (ProductService.get db product_id).1 = Except.ok p ∧
        p ∈ db.rows ∧ p.product_id = product_id) ∧
    (ProductService.selectById db product_id = none →
      (ProductService.get db product_id).1 =
        Except.error (DomErr.ProductNotFoundException product_id) ∧
      ∀ p ∈ db.rows, p.product_id ≠ product_id) ∧
    ((∀ p ∈ db.rows, p.product_id ≠ product_id) →
      (ProductService.get db product_id).1 =
        Except.error (DomErr.ProductNotFoundException product_id)) := by
  refine ⟨rfl, fun p hp => ?_, fun hn => ?_, fun hall => ?_⟩
  · refine ⟨by simp [ProductService.get, ProductService.getHandle,
      ProductService.get_product_object, hp], List.mem_of_find?_eq_some hp, ?_⟩
    have := List.find?_some hp
    simpa using this
  · refine ⟨by simp [ProductService.get, ProductService.getHandle, hn], fun p hp => ?_⟩
    have := List.find?_eq_none.mp hn p hp
    simpa using this
  · have hn : ProductService.selectById db product_id = none :=
      List.find?_eq_none.mpr (fun p hp => by simpa using hall p hp)
    simp [ProductService.get, ProductService.getHandle, hn]

/-- Concrete instantiation of `get_spec`: id 2 is found, id 9 is not. -/
theorem get_spec_witness :
    (ProductService.get db0 2).1 = Except.ok ⟨2, "Gadget", some "toys", 500⟩ ∧
    (ProductService.get db0 9).1 =
      Except.error (DomErr.ProductNotFoundException 9) :=
  ⟨((get_spec db0 2).2.1 ⟨2, "Gadget", some "toys", 500⟩ (by decide)).1,
    ((get_spec db0 9).2.2.1 (by decide)).1⟩

/-- Replacing every row matching `product_id` makes the first row found by
`product_id` the replacement, whenever some row was found before. -/
theorem find_replace (product_id : Nat) (pnew : Product)
    (hid : pnew.product_id = product_id) :
    ∀ (rows : List Product) (q : Product),
      rows.find? (fun r => r.product_id == product_id) = some q →
      (rows.map (fun r => if r.product_id == product_id then pnew else r)).find?
          (fun r => r.product_id == product_id) = some pnew := by
  intro rows
  induction rows with
  | nil => intro q h; simp at h
  | cons r rs ih =>
    intro q h
    by_cases hr : r.product_id = product_id
    · simp [List.find?, hr, hid]
    · have hr2 : (r.product_id == product_id) = false := by simpa using hr
      rw [List.find?_cons_of_neg _ (by simp [hr2])] at h
      have hm : ((r :: rs).map (fun x => if x.product_id == product_id then pnew else x)) =
          r :: rs.map (fun x => if x.product_id == product_id then pnew else x) := by
        simp [hr2]
        exact fun hx => absurd hx hr
      rw [hm, List.find?_cons_of_neg _ (by simp [hr2])]
      exact ih q h

/-- C6: `update` replaces all three mutable fields of the row matching
`product_id` and returns (and a subsequent `get` re-reads) the post-update
snapshot; it fails with `ProductExistsException name` when the new name
collides with a different row, and with `ProductNotFoundException product_id`
when no row matches. -/
theorem update_spec (db : DB) (product_id : Nat) (name : String)
    (category : Option String) (price : Int) :
    (ProductService.selectById db product_id = none →
      ProductService.update db product_id name category price =
        (Except.error (DomErr.ProductNotFoundException product_id), db)) ∧
    (∀ q, ProductService.selectById db product_id = some q →
      (db.rows.any (fun r => r.name == name && !(r.product_id == product_id)) = true →
        ProductService.update db product_id name category price =
          (Except.error (DomErr.ProductExistsException name), db)) ∧
      (db.rows.any (fun r => r.name == name && !(r.product_id == product_id)) = false →
        (ProductService.update db product_id name category price).1 =
          Except.ok ⟨product_id, name, category, price⟩ ∧
        (ProductService.update db product_id name category price).2.rows =
          db.rows.map (fun r =>
            if r.product_id == product_id then ⟨product_id, name, category, price⟩ else r) ∧
        (ProductService.get
            (ProductService.update db product_id name category price).2 product_id).1 =
          Except.ok ⟨product_id, name, category, price⟩)) := by
  refine ⟨fun hn => ?_, fun q hq => ⟨fun hcol => ?_, fun hcol => ?_⟩⟩
  · simp [ProductService.update, ProductService.updateExec, hn, ProductService.updateHandle]
  · simp [ProductService.update, ProductService.updateExec, hq, hcol,
      ProductService.updateHandle]
  · refine ⟨?_, ?_, ?_⟩
    · simp [ProductService.update, ProductService.updateExec, hq, hcol,
        ProductService.updateHandle, ProductService.get_product_object]
    · simp [ProductService.update, ProductService.updateExec, hq, hcol]
    · have hrows : (ProductService.update db product_id name category price).2.rows =
          db.rows.map (fun r =>
            if r.product_id == product_id then ⟨product_id, name, category, price⟩ else r) := by
        simp [ProductService.update, ProductService.updateExec, hq, hcol]
      have hfind := find_replace product_id ⟨product_id, name, category, price⟩ rfl db.rows q hq
      have hsel : ProductService.selectById
          (ProductService.update db product_id name category price).2 product_id =
          some ⟨product_id, name, category, price⟩ := by
        have hdef : ProductService.selectById
            (ProductService.update db product_id name category price).2 product_id =
            (ProductService.update db product_id name category price).2.rows.find?
              (fun r => r.product_id == product_id) := rfl
        rw [hdef, hrows]
        exact hfind
      simp [ProductService.get, ProductService.getHandle,
        ProductService.get_product_object, hsel]

/-- Concrete instantiation of `update_spec`: updating id 1 replaces all three
fields and a subsequent `get` sees the new snapshot. -/
theorem update_spec_witness :
    (ProductService.update db0 1 "Widget B" (some "tools") 1200).1 =
      Except.ok ⟨1, "Widget B", some "tools", 1200⟩ ∧
    (ProductService.get
        (ProductService.update db0 1 "Widget B" (some "tools") 1200).2 1).1 =
      Except.ok ⟨1, "Widget B", some "tools", 1200⟩ := by
  have h := ((update_spec db0 1 "Widget B" (some "tools") 1200).2
    ⟨1, "Widget A", some "tools", 999⟩ (by decide)).2 (by decide)
  exact ⟨h.1, h.2.2⟩

/-- C8: `delete` on a matching row removes it from the table, returns its
pre-deletion snapshot, and a subsequent `get` of the same id fails with
`ProductNotFoundException`; with no matching row it fails with
`ProductNotFoundException product_id` and changes nothing. -/
theorem delete_spec (db : DB) (product_id : Nat) :
    (ProductService.selectById db product_id = none →
      ProductService.delete db product_id =
        (Except.error (DomErr.ProductNotFoundException product_id), db)) ∧
    (∀ p, ProductService.selectById db product_id = some p →
      (ProductService.delete db product_id).1 = Except.ok p ∧
      (ProductService.delete db product_id).2.rows =
        db.rows.filter (fun r => !(r.product_id == product_id)) ∧
      (ProductService.get (ProductService.delete db product_id).2 product_id).1 =
        Except.error (DomErr.ProductNotFoundException product_id)) := by
  refine ⟨fun hn => ?_, fun p hp => ⟨?_, ?_, ?_⟩⟩
  · simp [ProductService.delete, ProductService.deleteExec, hn, ProductService.deleteHandle]
  · simp [ProductService.delete, ProductService.deleteExec, hp,
      ProductService.deleteHandle, ProductService.get_product_object]
  · simp [ProductService.delete, ProductService.deleteExec, hp]
  · have hrows : (ProductService.delete db product_id).2.rows =
        db.rows.filter (fun r => !(r.product_id == product_id)) := by
      simp [ProductService.delete, ProductService.deleteExec, hp]
    have hnone : (ProductService.delete db product_id).2.rows.find?
        (fun r => r.product_id == product_id) = none := by
      rw [hrows]
      refine List.find?_eq_none.mpr (fun r hr => ?_)
      have := (List.mem_filter.mp hr).2
      simpa using this
    simp [ProductService.get, ProductService.getHandle, ProductService.selectById, hnone]

/-- Concrete instantiation of `delete_spec`: deleting id 1 returns its last
snapshot and a subsequent `get` of id 1 fails. -/
theorem delete_spec_witness :
    (ProductService.delete db0 1).1 = Except.ok ⟨1, "Widget A", some "tools", 999⟩ ∧
    (ProductService.get (ProductService.delete db0 1).2 1).1 =
      Except.error (DomErr.ProductNotFoundException 1) := by
  have h := (delete_spec db0 1).2 ⟨1, "Widget A", some "tools", 999⟩ (by decide)
  exact ⟨h.1, h.2.2⟩

/-- C9: a storage-level exception other than `UniqueViolationError` leaves
every operation's handler as the raw storage error, unwrapped; only the
uniqueness violation is intercepted, and only by `create` and `update`, which
turn it into `ProductExistsException name` — `get`, `list` and `delete`
propagate even that one raw. -/
theorem storage_errors_propagate_unwrapped :
    (∀ (name : String) (e : PgErr), e ≠ PgErr.UniqueViolationError →
      ProductService.createHandle name (Except.error e) =
        Except.error (DomErr.StorageError e)) ∧
    (∀ (product_id : Nat) (name : String) (e : PgErr), e ≠ PgErr.UniqueViolationError →
      ProductService.updateHandle product_id name (Except.error e) =
        Except.error (DomErr.StorageError e)) ∧
    (∀ (product_id : Nat) (e : PgErr),
      ProductService.getHandle product_id (Except.error e) =
        Except.error (DomErr.StorageError e)) ∧
    (∀ e : PgErr,
      ProductService.listHandle (Except.error e) =
        Except.error (DomErr.StorageError e)) ∧
    (∀ (product_id : Nat) (e : PgErr),
      ProductService.deleteHandle product_id (Except.error e) =
        Except.error (DomErr.StorageError e)) ∧
    (∀ name : String,
      ProductService.createHandle name (Except.error PgErr.UniqueViolationError) =
        Except.error (DomErr.ProductExistsException name)) ∧
    (∀ (product_id : Nat) (name : String),
      ProductService.updateHandle product_id name
          (Except.error PgErr.UniqueViolationError) =
        Except.error (DomErr.ProductExistsException name)) := by
  refine ⟨fun name e he => ?_, fun pid name e he => ?_, fun pid e => rfl, fun e => rfl,
    fun pid e => rfl, fun name => rfl, fun pid name => rfl⟩ <;>
    cases e <;> first | exact absurd rfl he | rfl

/-- Concrete instantiation of `storage_errors_propagate_unwrapped`: a
non-uniqueness storage error surfaces raw from the create and update
handlers. -/
theorem storage_errors_propagate_unwrapped_witness :
    ProductService.createHandle "x" (Except.error (PgErr.other 7)) =
      Except.error (DomErr.StorageError (PgErr.other 7)) ∧
    ProductService.updateHandle 1 "x" (Except.error (PgErr.other 7)) =
      Except.error (DomErr.StorageError (PgErr.other 7)) :=
  ⟨storage_errors_propagate_unwrapped.1 "x" (PgErr.other 7) (by decide),
    storage_errors_propagate_unwrapped.2.1 1 "x" (PgErr.other 7) (by decide)⟩

/-- C10: the optionality tests of `list` are Python truthiness tests — a limit
of `0` and an absent limit build the same query and give the same (uncapped)
result, and an empty-string category and an absent category likewise. -/
theorem list_truthiness (db : DB) (keyword : String) (category : Option String)
    (limit : Option Nat) :
    listBuild keyword category (some 0) = listBuild keyword category none ∧
    listBuild keyword (some "") limit = listBuild keyword none limit ∧
    ProductService.list db keyword category (some 0) =
      ProductService.list db keyword category none ∧
    ProductService.list db keyword (some "") limit =
      ProductService.list db keyword none limit := by
  refine ⟨?_, ?_, ?_, ?_⟩ <;>
    simp [listBuild, ProductService.list, ProductService.listMatches,
      pyTruthyStrOpt, pyTruthyNatOpt]
